import Mathlib

/-!
Tensor description and quantization model of TIM-VX

A shallow embedding of `include/tim/vx/tensor.h` (classes `Quantization` and
`TensorSpec`) together with the properties of its derived computations
`MemSize` and `AsTransientSpec`.

Conventions of the embedding.

* `uint32_t` values are natural numbers; every arithmetic operation of the
  source on them is followed by an explicit reduction modulo `2 ^ 32`.
* `int32_t` values are integers, `float` values are carried as their bit
  pattern (the code only stores and copies them).
* `std::vector<T>` is a value type and is embedded as `List T`; the members
  of both classes are held by value, so an object is exactly the tuple of its
  member values.
* A member that a constructor leaves without an initial value is
  indeterminate. For `channel_dim_` this is `none`; for the scalar members of
  `TensorSpec` the indeterminate values are passed in explicitly.
* A call of a value-returning function ends in one of three ways, see
  `Outcome`.
* The loop counter of `AsTransientSpec` is `unsigned`; the embedding counts
  with natural numbers, which agrees with the source for every `perm` whose
  size fits the counter.
-/

namespace tim.vx

/-! ## External enumerations (`tim/vx/types.h`) -/

/-- Modelled from the spec: the enumeration `DataType` of `tim/vx/types.h`, which
is not part of the sources at hand. The spec describes it as a fixed enumeration
of scalar types (signed and unsigned 8/16/32-bit integers, 16/32-bit floating
point, and further tags); the eight tags named by `SizeOfDataType` are listed and
every further enumerator is `other tag`. -/
inductive DataType where
  | INT8
  | UINT8
  | INT16
  | UINT16
  | FLOAT16
  | INT32
  | UINT32
  | FLOAT32
  | other (tag : Nat)
  deriving DecidableEq, Repr

/-- Modelled from the spec: the enumeration `TensorAttribute` of `tim/vx/types.h`
(storage role: INPUT, OUTPUT, CONSTANT, TRANSIENT, VARIABLE). -/
inductive TensorAttribute where
  | INPUT
  | OUTPUT
  | CONSTANT
  | TRANSIENT
  | VARIABLE
  deriving DecidableEq, Repr

/-- Modelled from the spec: the enumeration `QuantType` of `tim/vx/types.h`
(scheme: none / asymmetric-affine / symmetric-per-channel / dynamic-fixed-point,
etc.); `NONE` is the tag the source names, every further enumerator is
`other tag`. -/
inductive QuantType where
  | NONE
  | ASYMMETRIC_AFFINE
  | SYMMETRIC_PER_CHANNEL
  | DYNAMIC_FIXED_POINT
  | other (tag : Nat)
  deriving DecidableEq, Repr

/-- Modelled from the spec: which scheme tags are per-tensor schemes. The
enumeration lives in `tim/vx/types.h`; the spec names asymmetric-affine and
dynamic-fixed-point next to the per-channel scheme. -/
def QuantType.isPerTensor : QuantType → Bool
  | .ASYMMETRIC_AFFINE => true
  | .DYNAMIC_FIXED_POINT => true
  | _ => false

/-- Modelled from the spec: which scheme tags are per-channel schemes. -/
def QuantType.isPerChannel : QuantType → Bool
  | .SYMMETRIC_PER_CHANNEL => true
  | _ => false

/-! ## Basic value types -/

/-- A `float`, carried as its 32-bit pattern. -/
structure F32 where
  bits : Nat
  deriving DecidableEq, Repr

/-- The type `ShapeType = std::vector<uint32_t>`. -/
abbrev ShapeType := List Nat

/-- The modulus of `uint32_t` arithmetic. -/
def UINT32_MOD : Nat := 2 ^ 32

/-- How the call of a value-returning member function ends. -/
inductive Outcome (α : Type) where
  /-- A `return` statement delivered the value `v`. -/
  | ret (v : α)
  /-- A diagnosed failure: an exception was thrown or an assertion stopped the program. -/
  | raised
  /-- Undefined behaviour: nothing was diagnosed and no value is defined. -/
  | undefined
  deriving DecidableEq, Repr

/-- Continue with `f` on a returned value; a failure of either kind is passed on. -/
def Outcome.bind {α β : Type} (o : Outcome α) (f : α → Outcome β) : Outcome β :=
  match o with
  | .ret v => f v
  | .raised => .raised
  | .undefined => .undefined

/-! ## `class Quantization` -/

/-- The members of `class Quantization`. `channel_dim_` has no default member
initialiser: it is `none` until a constructor or setter gives it a value. -/
structure Quantization where
  type_ : QuantType
  channel_dim_ : Option Int
  scales_ : List F32
  zero_points_ : List Int
  deriving DecidableEq, Repr

namespace Quantization

/-- The constructor `Quantization() : type_(QuantType::NONE) {}`. -/
def init : Quantization :=
  { type_ := .NONE, channel_dim_ := none, scales_ := [], zero_points_ := [] }

/-- The constructor `Quantization(QuantType type, float scale, int32_t zero_point)`. -/
def init3 (type : QuantType) (scale : F32) (zero_point : Int) : Quantization :=
  { type_ := type, channel_dim_ := none, scales_ := [scale], zero_points_ := [zero_point] }

/-- The constructor `Quantization(QuantType type, int32_t channel_dim,
std::vector<float> scales, std::vector<int32_t> zero_points)`. -/
def init4 (type : QuantType) (channel_dim : Int) (scales : List F32)
    (zero_points : List Int) : Quantization :=
  { type_ := type, channel_dim_ := some channel_dim, scales_ := scales,
    zero_points_ := zero_points }

/-- The getter `Type()` (`Type` is reserved in Lean, hence the underscore). -/
def Type_ (self : Quantization) : QuantType := self.type_

/-- The setter `SetType`: returns `*this` after the assignment. -/
def SetType (self : Quantization) (type : QuantType) : Quantization :=
  { self with type_ := type }

/-- The getter `ChannelDim()`. -/
def ChannelDim (self : Quantization) : Option Int := self.channel_dim_

/-- The setter `SetChannelDim`: returns `*this` after the assignment. -/
def SetChannelDim (self : Quantization) (channel_dim : Int) : Quantization :=
  { self with channel_dim_ := some channel_dim }

/-- The getter `Scales()`. -/
def Scales (self : Quantization) : List F32 := self.scales_

/-- The setter `SetScales`: returns `*this` after the assignment. -/
def SetScales (self : Quantization) (scales : List F32) : Quantization :=
  { self with scales_ := scales }

/-- The getter `ZeroPoints()`. -/
def ZeroPoints (self : Quantization) : List Int := self.zero_points_

/-- The setter `SetZeroPoints`: returns `*this` after the assignment. -/
def SetZeroPoints (self : Quantization) (zero_points : List Int) : Quantization :=
  { self with zero_points_ := zero_points }

end Quantization

/-! ## `struct TensorSpec` -/

/-- The members of `struct TensorSpec`. -/
structure TensorSpec where
  datatype_ : DataType
  shape_ : ShapeType
  attr_ : TensorAttribute
  quantization_ : Quantization
  deriving DecidableEq, Repr

/-- The values found in the scalar members `datatype_` and `attr_` of a
`TensorSpec` whose constructor has not assigned them yet. -/
structure Indeterminate where
  datatype : DataType
  attr : TensorAttribute
  deriving DecidableEq, Repr

namespace TensorSpec

/-- The constructor `TensorSpec() {}`: `shape_` and `quantization_` are
default-constructed, the two scalar members keep indeterminate values. -/
def init (u : Indeterminate) : TensorSpec :=
  { datatype_ := u.datatype, shape_ := [], attr_ := u.attr, quantization_ := Quantization.init }

/-- The constructor `TensorSpec(DataType datatype, const ShapeType& shape,
TensorAttribute attr)`. -/
def init3 (datatype : DataType) (shape : ShapeType) (attr : TensorAttribute) : TensorSpec :=
  { datatype_ := datatype, shape_ := shape, attr_ := attr, quantization_ := Quantization.init }

/-- The constructor `TensorSpec(datatype, shape, attr, quantization)`: delegates
to the three-argument constructor, then assigns `quantization_`. -/
def init4 (datatype : DataType) (shape : ShapeType) (attr : TensorAttribute)
    (quantization : Quantization) : TensorSpec :=
  let this := init3 datatype shape attr
  { this with quantization_ := quantization }

/-- The copy constructor `TensorSpec(const TensorSpec& other)`: the members are
default-initialised, then the body assigns the four of them in turn. -/
def copy (u : Indeterminate) (other : TensorSpec) : TensorSpec :=
  let this := init u
  let this := { this with datatype_ := other.datatype_ }
  let this := { this with shape_ := other.shape_ }
  let this := { this with attr_ := other.attr_ }
  { this with quantization_ := other.quantization_ }

/-- The setter `SetDataType`: returns `*this` after the assignment. -/
def SetDataType (self : TensorSpec) (datatype : DataType) : TensorSpec :=
  { self with datatype_ := datatype }

/-- The setter `SetShape`: returns `*this` after the assignment. -/
def SetShape (self : TensorSpec) (shape : ShapeType) : TensorSpec :=
  { self with shape_ := shape }

/-- The setter `SetAttribute`: returns `*this` after the assignment. -/
def SetAttribute (self : TensorSpec) (attr : TensorAttribute) : TensorSpec :=
  { self with attr_ := attr }

/-- The setter `SetQuantization`: returns `*this` after the assignment. -/
def SetQuantization (self : TensorSpec) (quantization : Quantization) : TensorSpec :=
  { self with quantization_ := quantization }

/-- The loop of `AsTransientSpec`: `rest` holds `perm[i], perm[i+1], ...`, the
entries still to be visited; each step performs
`final_shape[i] = this->shape_[perm[i]]`. `std::vector::operator[]` does not
check its index, so reading `shape_` at an index that is not below its size is
undefined behaviour. -/
def AsTransientSpec.loop (shape_ : ShapeType) : List Nat → Nat → ShapeType → Outcome ShapeType
  | [], _, final_shape => .ret final_shape
  | p :: rest, i, final_shape =>
    match shape_[p]? with
    | some d => AsTransientSpec.loop shape_ rest (i + 1) (final_shape.set i d)
    | none => .undefined

/-- The member function `AsTransientSpec(perm)`. `final_shape` starts as
`perm.size()` zeros, the loop fills it, and the result is built by the
four-argument constructor. -/
def AsTransientSpec (self : TensorSpec) (perm : List Nat) : Outcome TensorSpec :=
  let final_shape : ShapeType := List.replicate perm.length 0
  (AsTransientSpec.loop self.shape_ perm 0 final_shape).bind fun final_shape =>
    .ret (init4 self.datatype_ final_shape TensorAttribute.TRANSIENT self.quantization_)

/-- The default argument of `AsTransientSpec`: `std::vector<uint32_t>({0, 1, 2, 3})`. -/
def AsTransientSpec.defaultPerm : List Nat := [0, 1, 2, 3]

/-- The call `AsTransientSpec()` without an argument. -/
def AsTransientSpecDefault (self : TensorSpec) : Outcome TensorSpec :=
  self.AsTransientSpec AsTransientSpec.defaultPerm

/-- The private member function `SizeOfDataType(dt)`. The `switch` is on the
member `datatype_`, not on the parameter. In the `default` case control leaves
the `switch` and reaches the end of the function without a `return`. -/
def SizeOfDataType (self : TensorSpec) (_dt : DataType) : Outcome Nat :=
  match self.datatype_ with
  | .INT8 => .ret 1
  | .UINT8 => .ret 1
  | .INT16 => .ret 2
  | .UINT16 => .ret 2
  | .FLOAT16 => .ret 2
  | .INT32 => .ret 4
  | .UINT32 => .ret 4
  | .FLOAT32 => .ret 4
  | .other _ => .undefined

/-- The member function `MemSize()`: `sz_in_bytes` starts at 1 and is multiplied
by every dimension, then by the size of the datatype, all in `uint32_t`. -/
def MemSize (self : TensorSpec) : Outcome Nat :=
  let sz_in_bytes : Nat := self.shape_.foldl (fun sz d => (sz * d) % UINT32_MOD) 1
  (self.SizeOfDataType self.datatype_).bind fun w =>
    .ret ((sz_in_bytes * w) % UINT32_MOD)

end TensorSpec

/-! ## The byte widths of the specification -/

/-- The byte width table as the specification words it: 1 for INT8/UINT8, 2 for
INT16/UINT16/FLOAT16, 4 for INT32/UINT32/FLOAT32, none for any other datatype. -/
def specByteWidth : DataType → Option Nat
  | .INT8 | .UINT8 => some 1
  | .INT16 | .UINT16 | .FLOAT16 => some 2
  | .INT32 | .UINT32 | .FLOAT32 => some 4
  | .other _ => none

/-! ## Sequences of calls -/

/-- The data-model invariant of the specification: a per-tensor scheme has
exactly one scale and one zero point, a per-channel scheme has as many scales as
zero points. -/
def Quantization.Invariant (q : Quantization) : Prop :=
  (q.type_.isPerTensor = true → q.scales_.length = 1 ∧ q.zero_points_.length = 1) ∧
  (q.type_.isPerChannel = true → q.scales_.length = q.zero_points_.length)

instance (q : Quantization) : Decidable q.Invariant := by
  unfold Quantization.Invariant
  infer_instance

/-- A call of one of the four setters of `Quantization`, with its argument. -/
inductive Quantization.Call where
  | SetType (type : QuantType)
  | SetChannelDim (channel_dim : Int)
  | SetScales (scales : List F32)
  | SetZeroPoints (zero_points : List Int)
  deriving DecidableEq, Repr

/-- Perform one setter call on a `Quantization` object. -/
def Quantization.call (self : Quantization) : Quantization.Call → Quantization
  | .SetType type => self.SetType type
  | .SetChannelDim channel_dim => self.SetChannelDim channel_dim
  | .SetScales scales => self.SetScales scales
  | .SetZeroPoints zero_points => self.SetZeroPoints zero_points

/-- Perform a sequence of setter calls, first call first. -/
def Quantization.calls (self : Quantization) (cs : List Quantization.Call) : Quantization :=
  cs.foldl Quantization.call self

/-- A setter call that passes exactly one scale or exactly one zero point, or
that does not touch the two sequences at all. -/
def Quantization.Call.passesOne : Quantization.Call → Bool
  | .SetType _ => true
  | .SetChannelDim _ => true
  | .SetScales scales => scales.length == 1
  | .SetZeroPoints zero_points => zero_points.length == 1

/-- A call of one of the four builder-style setters of `TensorSpec`, with its
argument. -/
inductive TensorSpec.Call where
  | SetDataType (datatype : DataType)
  | SetShape (shape : ShapeType)
  | SetAttribute (attr : TensorAttribute)
  | SetQuantization (quantization : Quantization)
  deriving DecidableEq, Repr

/-- Perform one setter call on a `TensorSpec` object. -/
def TensorSpec.call (self : TensorSpec) : TensorSpec.Call → TensorSpec
  | .SetDataType datatype => self.SetDataType datatype
  | .SetShape shape => self.SetShape shape
  | .SetAttribute attr => self.SetAttribute attr
  | .SetQuantization quantization => self.SetQuantization quantization

/-- A chain of setter calls `spec.A(..).B(..)...`, first call first: every setter
returns `*this`, so the next call acts on the same object. -/
def TensorSpec.calls (self : TensorSpec) (cs : List TensorSpec.Call) : TensorSpec :=
  cs.foldl TensorSpec.call self

/-- A modification of a `TensorSpec` object: a setter call on the object, or a
setter call on its public member `quantization_`. -/
inductive TensorSpec.Mutation where
  | onSpec (c : TensorSpec.Call)
  | onQuantization (c : Quantization.Call)
  deriving DecidableEq, Repr

/-- Perform one modification on a `TensorSpec` object. -/
def TensorSpec.mutate (self : TensorSpec) : TensorSpec.Mutation → TensorSpec
  | .onSpec c => self.call c
  | .onQuantization c => { self with quantization_ := self.quantization_.call c }

/-- Two `TensorSpec` objects alive at the same time. All members are held by
value, so a member function called on one object reads and writes the members of
that object only. -/
structure SpecPair where
  original : TensorSpec
  copied : TensorSpec
  deriving DecidableEq, Repr

/-- The statement `TensorSpec copied(original);`. -/
def SpecPair.copyConstruct (u : Indeterminate) (original : TensorSpec) : SpecPair :=
  { original := original, copied := TensorSpec.copy u original }

/-- A modification performed on the object `copied`. -/
def SpecPair.mutateCopy (st : SpecPair) (m : TensorSpec.Mutation) : SpecPair :=
  { st with copied := st.copied.mutate m }

/-- A sequence of modifications performed on the object `copied`. -/
def SpecPair.mutateCopyAll (st : SpecPair) (ms : List TensorSpec.Mutation) : SpecPair :=
  ms.foldl SpecPair.mutateCopy st

/-! ## The size table applied to the argument -/

/-- The byte size of the datatype `dt` that is passed in: the `switch` of
`SizeOfDataType` with the parameter `dt` as its subject instead of the member
`datatype_`. -/
def TensorSpec.SizeOfArgument (_self : TensorSpec) (dt : DataType) : Outcome Nat :=
  match dt with
  | .INT8 => .ret 1
  | .UINT8 => .ret 1
  | .INT16 => .ret 2
  | .UINT16 => .ret 2
  | .FLOAT16 => .ret 2
  | .INT32 => .ret 4
  | .UINT32 => .ret 4
  | .FLOAT32 => .ret 4
  | .other _ => .undefined

/-- The function `MemSize()` with `SizeOfArgument` in the place of
`SizeOfDataType`. -/
def TensorSpec.MemSizeOfArgument (self : TensorSpec) : Outcome Nat :=
  let sz_in_bytes : Nat := self.shape_.foldl (fun sz d => (sz * d) % UINT32_MOD) 1
  (self.SizeOfArgument self.datatype_).bind fun w =>
    .ret ((sz_in_bytes * w) % UINT32_MOD)

/-! ## Auxiliary lemmas on `MemSize` -/

theorem foldl_mul_mod (l : List Nat) (a : Nat) :
    (l.foldl (fun sz d => (sz * d) % UINT32_MOD) a) % UINT32_MOD
      = (a * l.prod) % UINT32_MOD := by
  induction l generalizing a with
  | nil => simp
  | cons d l ih =>
    simp only [List.foldl_cons, List.prod_cons]
    rw [ih, Nat.mod_mul_mod, Nat.mul_assoc]

theorem SizeOfDataType_of_specByteWidth (s : TensorSpec) (dt : DataType) (w : Nat)
    (hw : specByteWidth s.datatype_ = some w) : s.SizeOfDataType dt = .ret w := by
  unfold TensorSpec.SizeOfDataType
  cases h : s.datatype_ <;> simp_all [specByteWidth]

theorem MemSize_mod (s : TensorSpec) (w : Nat) (hw : specByteWidth s.datatype_ = some w) :
    s.MemSize = .ret ((s.shape_.prod * w) % UINT32_MOD) := by
  unfold TensorSpec.MemSize
  rw [SizeOfDataType_of_specByteWidth s s.datatype_ w hw]
  simp only [Outcome.bind]
  rw [Nat.mul_mod, foldl_mul_mod, Nat.one_mul, ← Nat.mul_mod]

/-! ## Auxiliary lemmas on `AsTransientSpec` -/

theorem set_append_cons_length (done rest : List Nat) (x d : Nat) :
    (done ++ x :: rest).set done.length d = (done ++ [d]) ++ rest := by
  simp [List.set_append]

/-- With every remaining index in range, the loop overwrites the zeros that are
left in `final_shape` by the dimensions the indices select. -/
theorem loop_in_range (shape_ : ShapeType) (rest : List Nat)
    (h : ∀ x ∈ rest, x < shape_.length) (done : List Nat) :
    TensorSpec.AsTransientSpec.loop shape_ rest done.length
        (done ++ List.replicate rest.length 0)
      = .ret (done ++ rest.map (fun x => shape_.getD x 0)) := by
  induction rest generalizing done with
  | nil => simp [TensorSpec.AsTransientSpec.loop]
  | cons p rest ih =>
    have hp : p < shape_.length := h p (List.mem_cons_self p rest)
    have hrest : ∀ x ∈ rest, x < shape_.length :=
      fun x hx => h x (List.mem_cons_of_mem p hx)
    have hget : shape_[p]? = some (shape_.getD p 0) := by
      rw [List.getElem?_eq_getElem hp, List.getD_eq_getElem shape_ 0 hp]
    have hstep := ih hrest (done ++ [shape_.getD p 0])
    simp only [List.length_append, List.length_singleton, List.append_assoc,
      List.singleton_append] at hstep
    simp only [TensorSpec.AsTransientSpec.loop, hget, List.length_cons, List.replicate_succ,
      set_append_cons_length, hstep, List.map_cons, List.append_assoc, List.singleton_append]

/-- As soon as one remaining index is out of range, the loop reads `shape_`
outside its bounds. -/
theorem loop_out_of_range (shape_ : ShapeType) (rest : List Nat)
    (h : ∃ x ∈ rest, shape_.length ≤ x) (i : Nat) (final_shape : ShapeType) :
    TensorSpec.AsTransientSpec.loop shape_ rest i final_shape = .undefined := by
  induction rest generalizing i final_shape with
  | nil =>
    obtain ⟨x, hx, _⟩ := h
    simp at hx
  | cons p rest ih =>
    unfold TensorSpec.AsTransientSpec.loop
    cases hget : shape_[p]? with
    | none => rfl
    | some d =>
      have hp : p < shape_.length := by
        by_contra hcon
        rw [List.getElem?_eq_none (Nat.le_of_not_lt hcon)] at hget
        cases hget
      obtain ⟨x, hx, hle⟩ := h
      rcases List.mem_cons.mp hx with hxp | hxr
      · omega
      · exact ih ⟨x, hxr, hle⟩ (i + 1) (final_shape.set i d)

theorem AsTransientSpec_in_range (s : TensorSpec) (p : List Nat)
    (h : ∀ x ∈ p, x < s.shape_.length) :
    s.AsTransientSpec p
      = .ret (TensorSpec.init4 s.datatype_ (p.map (fun x => s.shape_.getD x 0))
          TensorAttribute.TRANSIENT s.quantization_) := by
  have hloop := loop_in_range s.shape_ p h []
  simp only [List.length_nil, List.nil_append] at hloop
  simp only [TensorSpec.AsTransientSpec, hloop, Outcome.bind]

/-! ## Byte size -/

/-- Claim C1, as amended: for every spec whose datatype has the byte width `w` in
the specification table and whose true byte size `product(shape) * w` is below
`2 ^ 32`, `MemSize()` returns exactly `product(shape) * w`. -/
theorem MemSize_eq_prod_mul_width (s : TensorSpec) (w : Nat)
    (hw : specByteWidth s.datatype_ = some w)
    (hsize : s.shape_.prod * w < 2 ^ 32) :
    s.MemSize = .ret (s.shape_.prod * w) := by
  rw [MemSize_mod s w hw, Nat.mod_eq_of_lt (by simpa [UINT32_MOD] using hsize)]

/-- Witness of C1: `TensorSpec(INT8, [2,3], INPUT).MemSize() == 6`. -/
theorem MemSize_eq_prod_mul_width_witness :
    specByteWidth (TensorSpec.init3 .INT8 [2, 3] .INPUT).datatype_ = some 1 ∧
    (TensorSpec.init3 .INT8 [2, 3] .INPUT).shape_.prod * 1 < 2 ^ 32 ∧
    (TensorSpec.init3 .INT8 [2, 3] .INPUT).MemSize = .ret 6 :=
  ⟨by decide, by decide,
    MemSize_eq_prod_mul_width (TensorSpec.init3 .INT8 [2, 3] .INPUT) 1 (by decide) (by decide)⟩

/-- Counterexample to C1 as stated: for the shape `[65536, 65536]` and INT8 (byte
width 1) the product of the dimensions times the width is `4294967296`, yet
`MemSize()` returns `0`. -/
theorem MemSize_ne_prod_mul_width_overflow :
    specByteWidth (TensorSpec.init3 .INT8 [65536, 65536] .INPUT).datatype_ = some 1 ∧
    (TensorSpec.init3 .INT8 [65536, 65536] .INPUT).shape_.prod * 1 = 4294967296 ∧
    (TensorSpec.init3 .INT8 [65536, 65536] .INPUT).MemSize = .ret 0 ∧
    (TensorSpec.init3 .INT8 [65536, 65536] .INPUT).MemSize
      ≠ .ret ((TensorSpec.init3 .INT8 [65536, 65536] .INPUT).shape_.prod * 1) := by
  decide

/-- Claim C3, evaluated on the code: for every datatype outside the eight
supported ones (whatever shape, attribute and quantization), `MemSize()` ends in
undefined behaviour; it neither returns a size nor raises a diagnosed error. -/
theorem MemSize_unsupported_undefined (tag : Nat) (shape : ShapeType)
    (attr : TensorAttribute) (q : Quantization) :
    (TensorSpec.init4 (.other tag) shape attr q).MemSize = .undefined ∧
    (TensorSpec.init4 (.other tag) shape attr q).MemSize ≠ .raised := by
  constructor
  · rfl
  · intro h
    cases h

/-- Claim C5: for every supported datatype with byte width `w`, `MemSize()` of a
spec whose shape is empty equals `w` (the empty product is 1). -/
theorem MemSize_empty_shape (s : TensorSpec) (w : Nat)
    (hw : specByteWidth s.datatype_ = some w) (hs : s.shape_ = []) :
    s.MemSize = .ret w := by
  have hlt : w < UINT32_MOD := by
    cases h : s.datatype_ <;> simp_all [specByteWidth] <;> subst hw <;> decide
  rw [MemSize_mod s w hw, hs]
  simp [Nat.mod_eq_of_lt hlt]

/-- Witness of C5: a FLOAT32 scalar occupies 4 bytes. -/
theorem MemSize_empty_shape_witness :
    specByteWidth (TensorSpec.init3 .FLOAT32 [] .INPUT).datatype_ = some 4 ∧
    (TensorSpec.init3 .FLOAT32 [] .INPUT).shape_ = [] ∧
    (TensorSpec.init3 .FLOAT32 [] .INPUT).MemSize = .ret 4 :=
  ⟨by decide, by decide,
    MemSize_empty_shape (TensorSpec.init3 .FLOAT32 [] .INPUT) 4 (by decide) (by decide)⟩

/-! ## Transient view -/

/-- Claim C2: for every spec and every index sequence `p` all of whose entries
are below the rank (duplicates allowed, any length), `AsTransientSpec(p)`
returns a spec whose shape has length `len(p)` with
`shape[i] == original.shape[p[i]]` for every `i < len(p)`, whose attr is
TRANSIENT and whose datatype and quantization are the original ones. -/
theorem AsTransientSpec_valid (s : TensorSpec) (p : List Nat)
    (h : ∀ x ∈ p, x < s.shape_.length) :
    ∃ r : TensorSpec, s.AsTransientSpec p = .ret r ∧
      r.shape_.length = p.length ∧
      (∀ i (hi : i < p.length), ∃ d, r.shape_[i]? = some d ∧ s.shape_[p[i]]? = some d) ∧
      r.attr_ = TensorAttribute.TRANSIENT ∧
      r.datatype_ = s.datatype_ ∧
      r.quantization_ = s.quantization_ := by
  refine ⟨_, AsTransientSpec_in_range s p h, ?_, ?_, rfl, rfl, rfl⟩
  · simp [TensorSpec.init4, TensorSpec.init3]
  · intro i hi
    have hp : p[i] < s.shape_.length := h _ (List.getElem_mem hi)
    refine ⟨s.shape_[p[i]], ?_, List.getElem?_eq_getElem hp⟩
    simp [TensorSpec.init4, TensorSpec.init3, List.getElem?_eq_getElem hi,
      List.getElem?_eq_getElem hp]

/-- Witness of C2: `TensorSpec(FLOAT32, [1,3,224,224], INPUT).AsTransientSpec({0,2,3,1})`
has shape `[1,224,224,3]`. -/
theorem AsTransientSpec_valid_witness :
    (TensorSpec.init3 .FLOAT32 [1, 3, 224, 224] .INPUT).AsTransientSpec [0, 2, 3, 1]
        = .ret (TensorSpec.init3 .FLOAT32 [1, 224, 224, 3] .TRANSIENT) ∧
    ∃ r : TensorSpec,
      (TensorSpec.init3 .FLOAT32 [1, 3, 224, 224] .INPUT).AsTransientSpec [0, 2, 3, 1] = .ret r ∧
      r.shape_.length = [0, 2, 3, 1].length ∧
      (∀ i (hi : i < [0, 2, 3, 1].length), ∃ d, r.shape_[i]? = some d ∧
        (TensorSpec.init3 .FLOAT32 [1, 3, 224, 224] .INPUT).shape_[[0, 2, 3, 1][i]]? = some d) ∧
      r.attr_ = TensorAttribute.TRANSIENT ∧
      r.datatype_ = (TensorSpec.init3 .FLOAT32 [1, 3, 224, 224] .INPUT).datatype_ ∧
      r.quantization_ = (TensorSpec.init3 .FLOAT32 [1, 3, 224, 224] .INPUT).quantization_ :=
  ⟨by decide,
    AsTransientSpec_valid (TensorSpec.init3 .FLOAT32 [1, 3, 224, 224] .INPUT) [0, 2, 3, 1]
      (by decide)⟩

/-- Claim C4, as amended: for every spec and every index sequence `p` that
contains an index greater than or equal to the rank, `AsTransientSpec(p)` reads
`shape_` outside its bounds without any check, which is undefined behaviour: no
spec is returned and no error is raised. In particular this is what
`AsTransientSpec()` with the default permutation does on a spec of rank below 4. -/
theorem AsTransientSpec_index_out_of_range (s : TensorSpec) :
    (∀ p : List Nat, (∃ x ∈ p, s.shape_.length ≤ x) →
        s.AsTransientSpec p = .undefined ∧ s.AsTransientSpec p ≠ .raised ∧
        ∀ r, s.AsTransientSpec p ≠ .ret r) ∧
    (s.shape_.length < 4 → s.AsTransientSpecDefault = .undefined) := by
  have key : ∀ p : List Nat, (∃ x ∈ p, s.shape_.length ≤ x) →
      s.AsTransientSpec p = .undefined := by
    intro p hp
    simp only [TensorSpec.AsTransientSpec, loop_out_of_range s.shape_ p hp, Outcome.bind]
  refine ⟨fun p hp => ?_, fun hrank => ?_⟩
  · rw [key p hp]
    refine ⟨rfl, ?_, ?_⟩
    · intro h
      cases h
    · intro r h
      cases h
  · exact key _ ⟨3, by simp [TensorSpec.AsTransientSpec.defaultPerm], by omega⟩

/-- Witness of C4: a rank-2 spec with the index sequence `[0, 5]`, and the same
spec with the default permutation. -/
theorem AsTransientSpec_index_out_of_range_witness :
    (∃ x ∈ [0, 5], (TensorSpec.init3 .FLOAT32 [2, 3] .INPUT).shape_.length ≤ x) ∧
    (TensorSpec.init3 .FLOAT32 [2, 3] .INPUT).shape_.length < 4 ∧
    (TensorSpec.init3 .FLOAT32 [2, 3] .INPUT).AsTransientSpec [0, 5] = .undefined ∧
    (TensorSpec.init3 .FLOAT32 [2, 3] .INPUT).AsTransientSpecDefault = .undefined :=
  ⟨⟨5, by decide, by decide⟩, by decide,
    ((AsTransientSpec_index_out_of_range (TensorSpec.init3 .FLOAT32 [2, 3] .INPUT)).1 [0, 5]
      ⟨5, by decide, by decide⟩).1,
    (AsTransientSpec_index_out_of_range (TensorSpec.init3 .FLOAT32 [2, 3] .INPUT)).2
      (by decide)⟩

/-- Counterexample to C4 as stated: on the rank-2 spec of shape `[2, 3]` the
default permutation holds the indices 2 and 3, which are not below the rank, and
the call does not end in a raised bounds error. -/
theorem AsTransientSpec_no_bounds_error :
    (∃ x ∈ TensorSpec.AsTransientSpec.defaultPerm,
      (TensorSpec.init3 .FLOAT32 [2, 3] .INPUT).shape_.length ≤ x) ∧
    (TensorSpec.init3 .FLOAT32 [2, 3] .INPUT).AsTransientSpecDefault ≠ .raised ∧
    (TensorSpec.init3 .FLOAT32 [2, 3] .INPUT).AsTransientSpec [0, 1, 2, 3] ≠ .raised := by
  refine ⟨⟨2, by decide, by decide⟩, by decide, by decide⟩

/-- Claim C10: for every spec of rank at least 4, `AsTransientSpec()` without an
argument is `AsTransientSpec({0,1,2,3})`; it returns a spec whose shape is the
first four dimensions of the original shape in the same order and whose attr is
TRANSIENT, so for a rank-4 spec the shape of the result is the original shape. -/
theorem AsTransientSpecDefault_rank_ge_four (s : TensorSpec) (h : 4 ≤ s.shape_.length) :
    s.AsTransientSpecDefault = s.AsTransientSpec [0, 1, 2, 3] ∧
    ∃ r : TensorSpec, s.AsTransientSpecDefault = .ret r ∧
      r.shape_ = s.shape_.take 4 ∧
      r.attr_ = TensorAttribute.TRANSIENT ∧
      (s.shape_.length = 4 → r.shape_ = s.shape_) := by
  have hvalid : ∀ x ∈ TensorSpec.AsTransientSpec.defaultPerm, x < s.shape_.length := by
    intro x hx
    simp only [TensorSpec.AsTransientSpec.defaultPerm, List.mem_cons, List.mem_singleton,
      List.not_mem_nil, or_false] at hx
    omega
  have hshape : TensorSpec.AsTransientSpec.defaultPerm.map (fun x => s.shape_.getD x 0)
      = s.shape_.take 4 := by
    match hs : s.shape_, h with
    | a :: b :: c :: d :: rest, _ => simp [TensorSpec.AsTransientSpec.defaultPerm]
  refine ⟨rfl, _, AsTransientSpec_in_range s _ hvalid, ?_, rfl, ?_⟩
  · simpa [TensorSpec.init4, TensorSpec.init3] using hshape
  · intro h4
    have : (s.shape_.take 4) = s.shape_ := List.take_of_length_le (by omega)
    simpa [TensorSpec.init4, TensorSpec.init3, this] using hshape

/-- Witness of C10: the default call on a rank-4 spec keeps the shape. -/
theorem AsTransientSpecDefault_rank_ge_four_witness :
    4 ≤ (TensorSpec.init3 .FLOAT32 [1, 3, 224, 224] .INPUT).shape_.length ∧
    (TensorSpec.init3 .FLOAT32 [1, 3, 224, 224] .INPUT).AsTransientSpecDefault
      = .ret (TensorSpec.init3 .FLOAT32 [1, 3, 224, 224] .TRANSIENT) ∧
    ∃ r : TensorSpec,
      (TensorSpec.init3 .FLOAT32 [1, 3, 224, 224] .INPUT).AsTransientSpecDefault = .ret r ∧
      r.shape_ = (TensorSpec.init3 .FLOAT32 [1, 3, 224, 224] .INPUT).shape_.take 4 ∧
      r.attr_ = TensorAttribute.TRANSIENT ∧
      ((TensorSpec.init3 .FLOAT32 [1, 3, 224, 224] .INPUT).shape_.length = 4 →
        r.shape_ = (TensorSpec.init3 .FLOAT32 [1, 3, 224, 224] .INPUT).shape_) :=
  ⟨by decide, by decide,
    (AsTransientSpecDefault_rank_ge_four
      (TensorSpec.init3 .FLOAT32 [1, 3, 224, 224] .INPUT) (by decide)).2⟩

/-! ## Quantization -/

theorem Quantization_calls_cons (q : Quantization) (c : Quantization.Call)
    (cs : List Quantization.Call) : q.calls (c :: cs) = (q.call c).calls cs := rfl

/-- One scale and one zero point stay one scale and one zero point under calls
that pass one element. -/
theorem Quantization_calls_lengths_one (cs : List Quantization.Call) (q : Quantization)
    (h : ∀ c ∈ cs, c.passesOne = true)
    (hq : q.scales_.length = 1 ∧ q.zero_points_.length = 1) :
    (q.calls cs).scales_.length = 1 ∧ (q.calls cs).zero_points_.length = 1 := by
  induction cs generalizing q with
  | nil => exact hq
  | cons c cs ih =>
    rw [Quantization_calls_cons]
    apply ih _ (fun c' hc' => h c' (List.mem_cons_of_mem c hc'))
    have hc := h c (List.mem_cons_self c cs)
    cases c <;>
      simp_all [Quantization.call, Quantization.SetType, Quantization.SetChannelDim,
        Quantization.SetScales, Quantization.SetZeroPoints, Quantization.Call.passesOne]

/-- Claim C6, as amended: a `Quantization` built by the per-tensor constructor
`Quantization(type, scale, zero_point)` and then modified by any sequence of
`SetType`, `SetChannelDim`, and `SetScales` / `SetZeroPoints` calls that pass
exactly one element has exactly one scale and one zero point, and therefore
satisfies the data-model invariant whatever its scheme tag is. -/
theorem Quantization_invariant_of_one_element_calls (type : QuantType) (scale : F32)
    (zero_point : Int) (cs : List Quantization.Call)
    (h : ∀ c ∈ cs, c.passesOne = true) :
    ((Quantization.init3 type scale zero_point).calls cs).scales_.length = 1 ∧
    ((Quantization.init3 type scale zero_point).calls cs).zero_points_.length = 1 ∧
    ((Quantization.init3 type scale zero_point).calls cs).Invariant := by
  have hone := Quantization_calls_lengths_one cs (Quantization.init3 type scale zero_point) h
    ⟨rfl, rfl⟩
  refine ⟨hone.1, hone.2, fun _ => hone, fun _ => ?_⟩
  rw [hone.1, hone.2]

/-- Witness of C6: a per-tensor value retagged as per-channel and given another
single scale and zero point. -/
theorem Quantization_invariant_of_one_element_calls_witness :
    (∀ c ∈ [Quantization.Call.SetType .SYMMETRIC_PER_CHANNEL, .SetChannelDim 1,
        .SetScales [⟨1056964608⟩], .SetZeroPoints [7]], c.passesOne = true) ∧
    ((Quantization.init3 .ASYMMETRIC_AFFINE ⟨1065353216⟩ 128).calls
      [.SetType .SYMMETRIC_PER_CHANNEL, .SetChannelDim 1,
        .SetScales [⟨1056964608⟩], .SetZeroPoints [7]]).Invariant :=
  ⟨by decide,
    (Quantization_invariant_of_one_element_calls .ASYMMETRIC_AFFINE ⟨1065353216⟩ 128
      [.SetType .SYMMETRIC_PER_CHANNEL, .SetChannelDim 1,
        .SetScales [⟨1056964608⟩], .SetZeroPoints [7]] (by decide)).2.2⟩

/-- Counterexample to C6 as stated: the four-argument constructor accepts a
per-tensor tag with two scales and two zero points; `SetType` on a
default-constructed value yields a per-tensor tag with no scale at all; and
`SetScales` gives a per-channel value two scales next to one zero point. None of
the three values satisfies the invariant. -/
theorem Quantization_invariant_violated :
    ¬ (Quantization.init4 .ASYMMETRIC_AFFINE 0 [⟨1065353216⟩, ⟨1056964608⟩] [0, 0]).Invariant ∧
    ¬ (Quantization.init.calls [.SetType .ASYMMETRIC_AFFINE]).Invariant ∧
    ¬ ((Quantization.init3 .SYMMETRIC_PER_CHANNEL ⟨1065353216⟩ 0).calls
        [.SetScales [⟨1065353216⟩, ⟨1056964608⟩]]).Invariant := by
  decide

/-- Claim C7: `Quantization` validates nothing. The four-argument constructor
stores the given tag, channel dimension, scales and zero points exactly,
whatever the lengths of the two sequences; each of `SetType`, `SetChannelDim`,
`SetScales`, `SetZeroPoints` stores its argument and leaves the three other
members as they were. -/
theorem Quantization_no_validation (q : Quantization) (type : QuantType) (channel_dim : Int)
    (scales : List F32) (zero_points : List Int) :
    ((Quantization.init4 type channel_dim scales zero_points).Type_ = type ∧
      (Quantization.init4 type channel_dim scales zero_points).ChannelDim = some channel_dim ∧
      (Quantization.init4 type channel_dim scales zero_points).Scales = scales ∧
      (Quantization.init4 type channel_dim scales zero_points).ZeroPoints = zero_points) ∧
    ((q.SetType type).Type_ = type ∧
      (q.SetType type).ChannelDim = q.ChannelDim ∧
      (q.SetType type).Scales = q.Scales ∧
      (q.SetType type).ZeroPoints = q.ZeroPoints) ∧
    ((q.SetChannelDim channel_dim).Type_ = q.Type_ ∧
      (q.SetChannelDim channel_dim).ChannelDim = some channel_dim ∧
      (q.SetChannelDim channel_dim).Scales = q.Scales ∧
      (q.SetChannelDim channel_dim).ZeroPoints = q.ZeroPoints) ∧
    ((q.SetScales scales).Type_ = q.Type_ ∧
      (q.SetScales scales).ChannelDim = q.ChannelDim ∧
      (q.SetScales scales).Scales = scales ∧
      (q.SetScales scales).ZeroPoints = q.ZeroPoints) ∧
    ((q.SetZeroPoints zero_points).Type_ = q.Type_ ∧
      (q.SetZeroPoints zero_points).ChannelDim = q.ChannelDim ∧
      (q.SetZeroPoints zero_points).Scales = q.Scales ∧
      (q.SetZeroPoints zero_points).ZeroPoints = zero_points) :=
  ⟨⟨rfl, rfl, rfl, rfl⟩, ⟨rfl, rfl, rfl, rfl⟩, ⟨rfl, rfl, rfl, rfl⟩, ⟨rfl, rfl, rfl, rfl⟩,
    ⟨rfl, rfl, rfl, rfl⟩⟩

/-! ## Copies and setters of `TensorSpec` -/

theorem SpecPair_mutateCopyAll_eq (ms : List TensorSpec.Mutation) (st : SpecPair) :
    st.mutateCopyAll ms
      = { original := st.original, copied := ms.foldl TensorSpec.mutate st.copied } := by
  induction ms generalizing st with
  | nil => rfl
  | cons m ms ih =>
    show (st.mutateCopy m).mutateCopyAll ms = _
    rw [ih]
    rfl

/-- Claim C8: the copy-constructed spec equals the source in all four fields
(the quantization with its type, scales and zero points included), whatever the
members of the new object held before the assignments; and the copy is
independent: after any sequence of modifications of the copy, in particular
after replacing its quantization scales, the source is unchanged. -/
theorem TensorSpec_copy_equal_and_independent (u : Indeterminate) (s : TensorSpec) :
    ((TensorSpec.copy u s).datatype_ = s.datatype_ ∧
      (TensorSpec.copy u s).shape_ = s.shape_ ∧
      (TensorSpec.copy u s).attr_ = s.attr_ ∧
      (TensorSpec.copy u s).quantization_ = s.quantization_ ∧
      (TensorSpec.copy u s).quantization_.Type_ = s.quantization_.Type_ ∧
      (TensorSpec.copy u s).quantization_.Scales = s.quantization_.Scales ∧
      (TensorSpec.copy u s).quantization_.ZeroPoints = s.quantization_.ZeroPoints ∧
      TensorSpec.copy u s = s) ∧
    (∀ ms : List TensorSpec.Mutation,
      ((SpecPair.copyConstruct u s).mutateCopyAll ms).original = s ∧
      ((SpecPair.copyConstruct u s).mutateCopyAll ms).copied = ms.foldl TensorSpec.mutate s) ∧
    (∀ scales : List F32,
      ((SpecPair.copyConstruct u s).mutateCopy
          (.onQuantization (.SetScales scales))).copied.quantization_.Scales = scales ∧
      ((SpecPair.copyConstruct u s).mutateCopy
          (.onQuantization (.SetScales scales))).original.quantization_.Scales
        = s.quantization_.Scales) := by
  have hcopy : TensorSpec.copy u s = s := rfl
  refine ⟨⟨rfl, rfl, rfl, rfl, rfl, rfl, rfl, hcopy⟩, fun ms => ?_, fun scales => ⟨rfl, rfl⟩⟩
  rw [SpecPair_mutateCopyAll_eq]
  exact ⟨rfl, rfl⟩

theorem TensorSpec_calls_cons (s : TensorSpec) (c : TensorSpec.Call)
    (cs : List TensorSpec.Call) : s.calls (c :: cs) = (s.call c).calls cs := rfl

theorem TensorSpec_calls_datatype (cs : List TensorSpec.Call) (s : TensorSpec) (dt : DataType)
    (huniq : ∀ d, TensorSpec.Call.SetDataType d ∈ cs → d = dt)
    (hset : s.datatype_ = dt ∨ TensorSpec.Call.SetDataType dt ∈ cs) :
    (s.calls cs).datatype_ = dt := by
  induction cs generalizing s with
  | nil => simpa using hset
  | cons c cs ih =>
    rw [TensorSpec_calls_cons]
    apply ih _ (fun d hd => huniq d (List.mem_cons_of_mem c hd))
    cases c with
    | SetDataType d => exact Or.inl (huniq d (List.mem_cons_self _ cs))
    | _ => simpa [TensorSpec.call, TensorSpec.SetShape, TensorSpec.SetAttribute,
        TensorSpec.SetQuantization] using hset

theorem TensorSpec_calls_shape (cs : List TensorSpec.Call) (s : TensorSpec) (sh : ShapeType)
    (huniq : ∀ d, TensorSpec.Call.SetShape d ∈ cs → d = sh)
    (hset : s.shape_ = sh ∨ TensorSpec.Call.SetShape sh ∈ cs) :
    (s.calls cs).shape_ = sh := by
  induction cs generalizing s with
  | nil => simpa using hset
  | cons c cs ih =>
    rw [TensorSpec_calls_cons]
    apply ih _ (fun d hd => huniq d (List.mem_cons_of_mem c hd))
    cases c with
    | SetShape d => exact Or.inl (huniq d (List.mem_cons_self _ cs))
    | _ => simpa [TensorSpec.call, TensorSpec.SetDataType, TensorSpec.SetAttribute,
        TensorSpec.SetQuantization] using hset

theorem TensorSpec_calls_attr (cs : List TensorSpec.Call) (s : TensorSpec) (a : TensorAttribute)
    (huniq : ∀ d, TensorSpec.Call.SetAttribute d ∈ cs → d = a)
    (hset : s.attr_ = a ∨ TensorSpec.Call.SetAttribute a ∈ cs) :
    (s.calls cs).attr_ = a := by
  induction cs generalizing s with
  | nil => simpa using hset
  | cons c cs ih =>
    rw [TensorSpec_calls_cons]
    apply ih _ (fun d hd => huniq d (List.mem_cons_of_mem c hd))
    cases c with
    | SetAttribute d => exact Or.inl (huniq d (List.mem_cons_self _ cs))
    | _ => simpa [TensorSpec.call, TensorSpec.SetDataType, TensorSpec.SetShape,
        TensorSpec.SetQuantization] using hset

theorem TensorSpec_calls_quantization (cs : List TensorSpec.Call) (s : TensorSpec)
    (q : Quantization)
    (huniq : ∀ d, TensorSpec.Call.SetQuantization d ∈ cs → d = q)
    (hset : s.quantization_ = q ∨ TensorSpec.Call.SetQuantization q ∈ cs) :
    (s.calls cs).quantization_ = q := by
  induction cs generalizing s with
  | nil => simpa using hset
  | cons c cs ih =>
    rw [TensorSpec_calls_cons]
    apply ih _ (fun d hd => huniq d (List.mem_cons_of_mem c hd))
    cases c with
    | SetQuantization d => exact Or.inl (huniq d (List.mem_cons_self _ cs))
    | _ => simpa [TensorSpec.call, TensorSpec.SetDataType, TensorSpec.SetShape,
        TensorSpec.SetAttribute] using hset

/-- Claim C9: each of `SetDataType`, `SetShape`, `SetAttribute`, `SetQuantization`
accepts every argument and returns the spec with exactly its own field
overwritten by the argument and the three other fields unchanged; hence a chain
of the four setters, in whatever order, yields the spec whose fields are the
four arguments. -/
theorem TensorSpec_setters_overwrite_one_field (s : TensorSpec) (dt : DataType)
    (sh : ShapeType) (a : TensorAttribute) (q : Quantization) :
    s.SetDataType dt
      = { datatype_ := dt, shape_ := s.shape_, attr_ := s.attr_,
          quantization_ := s.quantization_ } ∧
    s.SetShape sh
      = { datatype_ := s.datatype_, shape_ := sh, attr_ := s.attr_,
          quantization_ := s.quantization_ } ∧
    s.SetAttribute a
      = { datatype_ := s.datatype_, shape_ := s.shape_, attr_ := a,
          quantization_ := s.quantization_ } ∧
    s.SetQuantization q
      = { datatype_ := s.datatype_, shape_ := s.shape_, attr_ := s.attr_,
          quantization_ := q } ∧
    (∀ cs : List TensorSpec.Call,
      cs.Perm [.SetDataType dt, .SetShape sh, .SetAttribute a, .SetQuantization q] →
      s.calls cs = { datatype_ := dt, shape_ := sh, attr_ := a, quantization_ := q }) := by
  refine ⟨rfl, rfl, rfl, rfl, fun cs hperm => ?_⟩
  have hmem : ∀ c, c ∈ cs ↔
      c ∈ [TensorSpec.Call.SetDataType dt, .SetShape sh, .SetAttribute a, .SetQuantization q] :=
    fun c => hperm.mem_iff
  have h1 := TensorSpec_calls_datatype cs s dt
    (fun d hd => by simpa using (hmem _).mp hd) (Or.inr ((hmem _).mpr (by simp)))
  have h2 := TensorSpec_calls_shape cs s sh
    (fun d hd => by simpa using (hmem _).mp hd) (Or.inr ((hmem _).mpr (by simp)))
  have h3 := TensorSpec_calls_attr cs s a
    (fun d hd => by simpa using (hmem _).mp hd) (Or.inr ((hmem _).mpr (by simp)))
  have h4 := TensorSpec_calls_quantization cs s q
    (fun d hd => by simpa using (hmem _).mp hd) (Or.inr ((hmem _).mpr (by simp)))
  cases hres : s.calls cs with
  | mk d1 d2 d3 d4 =>
    rw [hres] at h1 h2 h3 h4
    simp only at h1 h2 h3 h4
    rw [h1, h2, h3, h4]

/-- Witness of C9: the four setters chained in the order quantization, shape,
datatype, attribute on a default-constructed spec. -/
theorem TensorSpec_setters_overwrite_one_field_witness :
    [TensorSpec.Call.SetQuantization (Quantization.init3 .ASYMMETRIC_AFFINE ⟨1065353216⟩ 128),
        .SetShape [2, 3], .SetDataType .UINT8, .SetAttribute .OUTPUT].Perm
      [.SetDataType .UINT8, .SetShape [2, 3], .SetAttribute .OUTPUT,
        .SetQuantization (Quantization.init3 .ASYMMETRIC_AFFINE ⟨1065353216⟩ 128)] ∧
    (TensorSpec.init ⟨.other 0, .INPUT⟩).calls
        [.SetQuantization (Quantization.init3 .ASYMMETRIC_AFFINE ⟨1065353216⟩ 128),
          .SetShape [2, 3], .SetDataType .UINT8, .SetAttribute .OUTPUT]
      = { datatype_ := .UINT8, shape_ := [2, 3], attr_ := .OUTPUT,
          quantization_ := Quantization.init3 .ASYMMETRIC_AFFINE ⟨1065353216⟩ 128 } :=
  ⟨by decide,
    (TensorSpec_setters_overwrite_one_field (TensorSpec.init ⟨.other 0, .INPUT⟩) .UINT8 [2, 3]
      .OUTPUT (Quantization.init3 .ASYMMETRIC_AFFINE ⟨1065353216⟩ 128)).2.2.2.2 _ (by decide)⟩

/-! ## Construction -/

/-- Claim C11: a `TensorSpec` built by the default constructor or by the
three-argument constructor has a quantization of type NONE with no scales and no
zero points; the three-argument constructor stores the given datatype, shape and
attr unchanged; the four-argument constructor stores the given quantization
unchanged next to those three fields. -/
theorem TensorSpec_constructors (u : Indeterminate) (datatype : DataType) (shape : ShapeType)
    (attr : TensorAttribute) (quantization : Quantization) :
    ((TensorSpec.init u).quantization_.Type_ = QuantType.NONE ∧
      (TensorSpec.init u).quantization_.Scales = [] ∧
      (TensorSpec.init u).quantization_.ZeroPoints = []) ∧
    ((TensorSpec.init3 datatype shape attr).quantization_.Type_ = QuantType.NONE ∧
      (TensorSpec.init3 datatype shape attr).quantization_.Scales = [] ∧
      (TensorSpec.init3 datatype shape attr).quantization_.ZeroPoints = [] ∧
      (TensorSpec.init3 datatype shape attr).datatype_ = datatype ∧
      (TensorSpec.init3 datatype shape attr).shape_ = shape ∧
      (TensorSpec.init3 datatype shape attr).attr_ = attr) ∧
    ((TensorSpec.init4 datatype shape attr quantization).datatype_ = datatype ∧
      (TensorSpec.init4 datatype shape attr quantization).shape_ = shape ∧
      (TensorSpec.init4 datatype shape attr quantization).attr_ = attr ∧
      (TensorSpec.init4 datatype shape attr quantization).quantization_ = quantization) :=
  ⟨⟨rfl, rfl, rfl⟩, ⟨rfl, rfl, rfl, rfl, rfl, rfl⟩, ⟨rfl, rfl, rfl, rfl⟩⟩

/-- Claim C12: for every scheme tag, scale and zero point, the per-tensor
constructor `Quantization(type, scale, zero_point)` yields a value whose `Type()`
is `type`, whose `Scales()` is `[scale]` and whose `ZeroPoints()` is
`[zero_point]`; it has exactly one scale and one zero point and satisfies the
data-model invariant. -/
theorem Quantization_per_tensor_constructor (type : QuantType) (scale : F32)
    (zero_point : Int) :
    (Quantization.init3 type scale zero_point).Type_ = type ∧
    (Quantization.init3 type scale zero_point).Scales = [scale] ∧
    (Quantization.init3 type scale zero_point).ZeroPoints = [zero_point] ∧
    (Quantization.init3 type scale zero_point).Scales.length = 1 ∧
    (Quantization.init3 type scale zero_point).ZeroPoints.length = 1 ∧
    (Quantization.init3 type scale zero_point).Invariant :=
  ⟨rfl, rfl, rfl, rfl, rfl, fun _ => ⟨rfl, rfl⟩, fun _ => rfl⟩

/-! ## Byte size in 32-bit arithmetic -/

/-- Claim C13: for every shape and every supported datatype of width `w`,
`MemSize()` returns `((product of dimensions) * w) mod 2^32`; the returned value
differs from the true byte size exactly when that size is at least `2^32`. -/
theorem MemSize_wraps_modulo (s : TensorSpec) (w : Nat)
    (hw : specByteWidth s.datatype_ = some w) :
    s.MemSize = .ret ((s.shape_.prod * w) % 2 ^ 32) ∧
    (s.MemSize ≠ .ret (s.shape_.prod * w) ↔ 2 ^ 32 ≤ s.shape_.prod * w) := by
  have hmod := MemSize_mod s w hw
  simp only [UINT32_MOD] at hmod
  refine ⟨hmod, ?_⟩
  rw [hmod]
  constructor
  · intro hne
    by_contra hlt
    exact hne (by rw [Nat.mod_eq_of_lt (Nat.lt_of_not_le hlt)])
  · intro hge heq
    have hval : (s.shape_.prod * w) % 2 ^ 32 = s.shape_.prod * w := by
      injection heq
    have hlt : (s.shape_.prod * w) % 2 ^ 32 < 2 ^ 32 := Nat.mod_lt _ (by decide)
    omega

/-- Witness of C13: shape `[65536, 65536]` with INT8 gives 0, not 4294967296. -/
theorem MemSize_wraps_modulo_witness :
    specByteWidth (TensorSpec.init3 .INT8 [65536, 65536] .OUTPUT).datatype_ = some 1 ∧
    (TensorSpec.init3 .INT8 [65536, 65536] .OUTPUT).MemSize = .ret 0 ∧
    (TensorSpec.init3 .INT8 [65536, 65536] .OUTPUT).MemSize
      = .ret (((TensorSpec.init3 .INT8 [65536, 65536] .OUTPUT).shape_.prod * 1) % 2 ^ 32) ∧
    (TensorSpec.init3 .INT8 [65536, 65536] .OUTPUT).MemSize
      ≠ .ret ((TensorSpec.init3 .INT8 [65536, 65536] .OUTPUT).shape_.prod * 1) :=
  ⟨by decide, by decide,
    (MemSize_wraps_modulo (TensorSpec.init3 .INT8 [65536, 65536] .OUTPUT) 1 (by decide)).1,
    (MemSize_wraps_modulo (TensorSpec.init3 .INT8 [65536, 65536] .OUTPUT) 1 (by decide)).2.mpr
      (by decide)⟩

/-- Claim C15: for every spec with a supported datatype whose shape contains a
dimension equal to 0, `MemSize()` returns 0, whatever the other dimensions are. -/
theorem MemSize_zero_dimension (s : TensorSpec) (w : Nat)
    (hw : specByteWidth s.datatype_ = some w) (hzero : 0 ∈ s.shape_) :
    s.MemSize = .ret 0 := by
  rw [MemSize_mod s w hw, List.prod_eq_zero hzero]
  simp

/-- Witness of C15: a zero dimension next to dimensions whose product exceeds
32 bits. -/
theorem MemSize_zero_dimension_witness :
    specByteWidth (TensorSpec.init3 .UINT32 [65536, 65536, 0, 7] .INPUT).datatype_ = some 4 ∧
    0 ∈ (TensorSpec.init3 .UINT32 [65536, 65536, 0, 7] .INPUT).shape_ ∧
    (TensorSpec.init3 .UINT32 [65536, 65536, 0, 7] .INPUT).MemSize = .ret 0 :=
  ⟨by decide, by decide,
    MemSize_zero_dimension (TensorSpec.init3 .UINT32 [65536, 65536, 0, 7] .INPUT) 4
      (by decide) (by decide)⟩

/-! ## Permuted views -/

theorem map_getD_range (l : List Nat) :
    (List.range l.length).map (fun x => l.getD x 0) = l := by
  apply List.ext_getElem
  · simp
  · intro i h1 h2
    simp [List.getElem?_eq_getElem h2]

theorem getD_map_getD (shape_ p : List Nat) (x : Nat) (hx : x < p.length) :
    (p.map (fun y => shape_.getD y 0)).getD x 0 = shape_.getD (p.getD x 0) 0 := by
  have hx2 : x < (p.map (fun y => shape_.getD y 0)).length := by simpa using hx
  rw [List.getD_eq_getElem _ 0 hx2, List.getD_eq_getElem p 0 hx, List.getElem_map]

/-- Claim C14: for every spec with a supported datatype and every `p` that is a
permutation of all axes `0..rank-1`, `AsTransientSpec(p)` returns a spec whose
`MemSize()` equals the `MemSize()` of the original, wrapped products included. -/
theorem AsTransientSpec_permutation_keeps_MemSize (s : TensorSpec) (p : List Nat) (w : Nat)
    (hw : specByteWidth s.datatype_ = some w)
    (hp : p.Perm (List.range s.shape_.length)) :
    ∃ r : TensorSpec, s.AsTransientSpec p = .ret r ∧ r.MemSize = s.MemSize := by
  have hvalid : ∀ x ∈ p, x < s.shape_.length :=
    fun x hx => List.mem_range.mp (hp.mem_iff.mp hx)
  refine ⟨_, AsTransientSpec_in_range s p hvalid, ?_⟩
  have hprod : (p.map (fun x => s.shape_.getD x 0)).prod = s.shape_.prod := by
    rw [(hp.map (fun x => s.shape_.getD x 0)).prod_eq, map_getD_range]
  rw [MemSize_mod s w hw,
    MemSize_mod (TensorSpec.init4 s.datatype_ (p.map (fun x => s.shape_.getD x 0))
      TensorAttribute.TRANSIENT s.quantization_) w hw]
  show Outcome.ret (((p.map (fun x => s.shape_.getD x 0)).prod * w) % UINT32_MOD) = _
  rw [hprod]

/-- Witness of C14: shape `[65537, 65536, 2]` with INT16, whose product wraps
around, viewed through the permutation `[2, 0, 1]`. -/
theorem AsTransientSpec_permutation_keeps_MemSize_witness :
    specByteWidth (TensorSpec.init3 .INT16 [65537, 65536, 2] .INPUT).datatype_ = some 2 ∧
    [2, 0, 1].Perm (List.range (TensorSpec.init3 .INT16 [65537, 65536, 2] .INPUT).shape_.length) ∧
    (TensorSpec.init3 .INT16 [65537, 65536, 2] .INPUT).MemSize = .ret 262144 ∧
    (TensorSpec.init3 .INT16 [2, 65537, 65536] .TRANSIENT).MemSize = .ret 262144 ∧
    ∃ r : TensorSpec,
      (TensorSpec.init3 .INT16 [65537, 65536, 2] .INPUT).AsTransientSpec [2, 0, 1] = .ret r ∧
      r.MemSize = (TensorSpec.init3 .INT16 [65537, 65536, 2] .INPUT).MemSize :=
  ⟨by decide, by decide, by decide, by decide,
    AsTransientSpec_permutation_keeps_MemSize
      (TensorSpec.init3 .INT16 [65537, 65536, 2] .INPUT) [2, 0, 1] 2 (by decide) (by decide)⟩

/-- Claim C16: `AsTransientSpec` composes by index composition. For every spec,
every `p` whose indices are below the rank and every `q` whose indices are below
`len(p)`, taking the view `p` and then the view `q` gives the same outcome as
the single view `r` with `r[i] = p[q[i]]` for every `i < len(q)`: a returned
spec with shape `original.shape[p[q[i]]]`, attr TRANSIENT and the original
datatype and quantization. When `r` is the identity on all axes, as for a
permutation followed by its inverse, the shape is the original shape. -/
theorem AsTransientSpec_composition (s : TensorSpec) (p q : List Nat)
    (hp : ∀ x ∈ p, x < s.shape_.length) (hq : ∀ x ∈ q, x < p.length) :
    ((q.map (fun j => p.getD j 0)).length = q.length ∧
      ∀ i (hi : i < q.length), (q.map (fun j => p.getD j 0))[i]? = p[q[i]]?) ∧
    (s.AsTransientSpec p).bind (fun t => t.AsTransientSpec q)
      = s.AsTransientSpec (q.map (fun j => p.getD j 0)) ∧
    ∃ t : TensorSpec, s.AsTransientSpec (q.map (fun j => p.getD j 0)) = .ret t ∧
      t.shape_ = q.map (fun j => s.shape_.getD (p.getD j 0) 0) ∧
      t.attr_ = TensorAttribute.TRANSIENT ∧
      t.datatype_ = s.datatype_ ∧
      t.quantization_ = s.quantization_ ∧
      (q.map (fun j => p.getD j 0) = List.range s.shape_.length → t.shape_ = s.shape_) := by
  have hr : ∀ x ∈ q.map (fun j => p.getD j 0), x < s.shape_.length := by
    intro x hx
    obtain ⟨j, hj, rfl⟩ := List.mem_map.mp hx
    have hjp : j < p.length := hq j hj
    rw [List.getD_eq_getElem p 0 hjp]
    exact hp _ (List.getElem_mem hjp)
  have hsingle := AsTransientSpec_in_range s (q.map (fun j => p.getD j 0)) hr
  have hfirst := AsTransientSpec_in_range s p hp
  have hq2 : ∀ x ∈ q, x < (TensorSpec.init4 s.datatype_ (p.map (fun x => s.shape_.getD x 0))
      TensorAttribute.TRANSIENT s.quantization_).shape_.length := by
    intro x hx
    show x < (p.map (fun x => s.shape_.getD x 0)).length
    simpa using hq x hx
  have hsecond := AsTransientSpec_in_range _ q hq2
  have hshape : q.map (fun x => (p.map (fun y => s.shape_.getD y 0)).getD x 0)
      = (q.map (fun j => p.getD j 0)).map (fun x => s.shape_.getD x 0) := by
    rw [List.map_map]
    apply List.map_congr_left
    intro x hx
    exact getD_map_getD s.shape_ p x (hq x hx)
  refine ⟨⟨by simp, ?_⟩, ?_, _, hsingle, ?_, rfl, rfl, rfl, ?_⟩
  · intro i hi
    have hqi : q[i] < p.length := hq _ (List.getElem_mem hi)
    simp [List.getElem?_eq_getElem hi, List.getElem?_eq_getElem hqi]
  · rw [hfirst]
    show (TensorSpec.init4 s.datatype_ (p.map (fun x => s.shape_.getD x 0))
      TensorAttribute.TRANSIENT s.quantization_).AsTransientSpec q = _
    rw [hsecond, hsingle]
    show Outcome.ret (TensorSpec.init4 s.datatype_
        (q.map (fun x => (p.map (fun y => s.shape_.getD y 0)).getD x 0))
        TensorAttribute.TRANSIENT s.quantization_) = _
    rw [hshape]
  · show (q.map (fun j => p.getD j 0)).map (fun x => s.shape_.getD x 0) = _
    rw [List.map_map]
    rfl
  · intro hid
    show (q.map (fun j => p.getD j 0)).map (fun x => s.shape_.getD x 0) = _
    rw [hid, map_getD_range]

/-- Witness of C16: the view `[0, 2, 3, 1]` followed by its inverse
`[0, 3, 1, 2]` restores the shape `[1, 3, 224, 224]`. -/
theorem AsTransientSpec_composition_witness :
    (∀ x ∈ [0, 2, 3, 1], x < (TensorSpec.init3 .FLOAT32 [1, 3, 224, 224] .INPUT).shape_.length) ∧
    (∀ x ∈ [0, 3, 1, 2], x < [0, 2, 3, 1].length) ∧
    [0, 3, 1, 2].map (fun j => [0, 2, 3, 1].getD j 0) = [0, 1, 2, 3] ∧
    ((TensorSpec.init3 .FLOAT32 [1, 3, 224, 224] .INPUT).AsTransientSpec [0, 2, 3, 1]).bind
        (fun t => t.AsTransientSpec [0, 3, 1, 2])
      = .ret (TensorSpec.init3 .FLOAT32 [1, 3, 224, 224] .TRANSIENT) ∧
    ((TensorSpec.init3 .FLOAT32 [1, 3, 224, 224] .INPUT).AsTransientSpec [0, 2, 3, 1]).bind
        (fun t => t.AsTransientSpec [0, 3, 1, 2])
      = (TensorSpec.init3 .FLOAT32 [1, 3, 224, 224] .INPUT).AsTransientSpec
          ([0, 3, 1, 2].map (fun j => [0, 2, 3, 1].getD j 0)) :=
  ⟨by decide, by decide, by decide, by decide,
    (AsTransientSpec_composition (TensorSpec.init3 .FLOAT32 [1, 3, 224, 224] .INPUT)
      [0, 2, 3, 1] [0, 3, 1, 2] (by decide) (by decide)).2.1⟩

/-! ## The ignored parameter of `SizeOfDataType` -/

theorem SizeOfDataType_eq_SizeOfArgument_member (s : TensorSpec) (dt : DataType) :
    s.SizeOfDataType dt = s.SizeOfArgument s.datatype_ := by
  unfold TensorSpec.SizeOfDataType TensorSpec.SizeOfArgument
  cases s.datatype_ <;> rfl

theorem SizeOfArgument_of_specByteWidth (s : TensorSpec) (dt : DataType) (w : Nat)
    (hw : specByteWidth dt = some w) : s.SizeOfArgument dt = .ret w := by
  unfold TensorSpec.SizeOfArgument
  cases dt <;> simp_all [specByteWidth]

/-- Claim C17: `SizeOfDataType(dt)` ignores its argument. For every spec whose
member `datatype_` is supported with byte width `w` and every argument `dt`, the
result is `w`, the width of `datatype_`; whenever the width of `dt` is another
number, the result is not the width of `dt`. `MemSize()` passes `datatype_`
itself, so it returns what it would return with the table applied to the
argument. -/
theorem SizeOfDataType_ignores_argument (s : TensorSpec) (w : Nat)
    (hw : specByteWidth s.datatype_ = some w) (dt : DataType) :
    s.SizeOfDataType dt = .ret w ∧
    s.SizeOfDataType dt = s.SizeOfDataType s.datatype_ ∧
    (∀ w2, specByteWidth dt = some w2 → w2 ≠ w →
      s.SizeOfArgument dt = .ret w2 ∧ s.SizeOfDataType dt ≠ s.SizeOfArgument dt) ∧
    s.MemSize = s.MemSizeOfArgument := by
  have hres := SizeOfDataType_of_specByteWidth s dt w hw
  refine ⟨hres, ?_, ?_, ?_⟩
  · rw [hres, SizeOfDataType_of_specByteWidth s s.datatype_ w hw]
  · intro w2 hw2 hne
    have harg := SizeOfArgument_of_specByteWidth s dt w2 hw2
    refine ⟨harg, ?_⟩
    rw [hres, harg]
    intro heq
    injection heq with hval
    exact hne hval.symm
  · unfold TensorSpec.MemSize TensorSpec.MemSizeOfArgument
    rw [SizeOfDataType_eq_SizeOfArgument_member]

/-- Witness of C17: on an INT8 spec, `SizeOfDataType(FLOAT32)` is 1, not 4. -/
theorem SizeOfDataType_ignores_argument_witness :
    specByteWidth (TensorSpec.init3 .INT8 [2, 3] .INPUT).datatype_ = some 1 ∧
    specByteWidth .FLOAT32 = some 4 ∧
    (TensorSpec.init3 .INT8 [2, 3] .INPUT).SizeOfDataType .FLOAT32 = .ret 1 ∧
    (TensorSpec.init3 .INT8 [2, 3] .INPUT).SizeOfDataType .FLOAT32
      ≠ (TensorSpec.init3 .INT8 [2, 3] .INPUT).SizeOfArgument .FLOAT32 ∧
    (TensorSpec.init3 .INT8 [2, 3] .INPUT).MemSize
      = (TensorSpec.init3 .INT8 [2, 3] .INPUT).MemSizeOfArgument :=
  ⟨by decide, by decide,
    (SizeOfDataType_ignores_argument (TensorSpec.init3 .INT8 [2, 3] .INPUT) 1 (by decide)
      .FLOAT32).1,
    ((SizeOfDataType_ignores_argument (TensorSpec.init3 .INT8 [2, 3] .INPUT) 1 (by decide)
      .FLOAT32).2.2.1 4 (by decide) (by decide)).2,
    (SizeOfDataType_ignores_argument (TensorSpec.init3 .INT8 [2, 3] .INPUT) 1 (by decide)
      .FLOAT32).2.2.2⟩

end tim.vx
